import Mathlib

/-!
Shallow embedding of the eco-discord-consensus-bot sources
(`bot/utils/proposal_utils.py` and `bot/transact.py`) and proofs of the
spec claims about them.

Python dynamic values that the validators inspect with `isinstance` are
modelled by the sum type `PyVal`; the process-wide `proposals` dictionary
is modelled as an insertion-ordered association list with Python-dict
semantics (overwriting insert, membership, deletion). Effects of the
storage collaborator (`DBUtil`) and of the chat platform are modelled as
explicit outcome parameters, since those modules are outside the two
source files; the orchestration logic around them is translated from the
source line by line.
-/

set_option autoImplicit false

/-- Model of a dynamically typed Python value as it can appear in a field
of a `Proposals` ORM object. `user` stands for a `discord.User`,
`datetime` for a `datetime.datetime` (abstracted to a tick count),
`instrumentedList` for a SQLAlchemy `InstrumentedList` of finance
recipients, and `plainList` for an ordinary Python list (which is not an
`InstrumentedList`). -/
inductive PyVal where
  | int : Int → PyVal
  | bool : Bool → PyVal
  | str : String → PyVal
  | datetime : Nat → PyVal
  | user : Int → PyVal
  | pynone : PyVal
  | instrumentedList : List Int → PyVal
  | plainList : List Int → PyVal
deriving DecidableEq, Repr

/-- Python `isinstance(v, int)`: `bool` is a subclass of `int` in Python. -/
def PyVal.isInt : PyVal → Bool
  | .int _ => true
  | .bool _ => true
  | _ => false

/-- Python `isinstance(v, bool)`. -/
def PyVal.isBool : PyVal → Bool
  | .bool _ => true
  | _ => false

/-- Python `isinstance(v, str)`. -/
def PyVal.isStr : PyVal → Bool
  | .str _ => true
  | _ => false

/-- Python `isinstance(v, datetime)`. -/
def PyVal.isDatetime : PyVal → Bool
  | .datetime _ => true
  | _ => false

/-- Python `isinstance(v, (discord.User, str, int))` as used for the
`author_id` field. -/
def PyVal.isUserStrOrInt : PyVal → Bool
  | .user _ => true
  | .str _ => true
  | .int _ => true
  | .bool _ => true
  | _ => false

/-- Python `isinstance(v, InstrumentedList)`. -/
def PyVal.isInstrumentedList : PyVal → Bool
  | .instrumentedList _ => true
  | _ => false

/-- Python truthiness of a value, as used by `if new_proposal.not_financial:`
and `if db:`. -/
def PyVal.truthy : PyVal → Bool
  | .int n => n != 0
  | .bool b => b
  | .str s => s != ""
  | .datetime _ => true
  | .user _ => true
  | .pynone => false
  | .instrumentedList l => !l.isEmpty
  | .plainList l => !l.isEmpty

/-- Model of a `Voters` ORM row: user identity, the voting message the vote
belongs to, and the numeric vote value. -/
structure Voters where
  user_id : Int
  voting_message_id : Int
  value : Int
deriving DecidableEq, Repr

/-- Model of a `Proposals` ORM object. Every field that
`validate_grantless_proposal` / `validate_proposal_with_grant` inspects is
kept dynamically typed (`PyVal`), exactly as the Python attribute is. -/
structure Proposals where
  message_id : PyVal
  channel_id : PyVal
  author_id : PyVal
  voting_message_id : PyVal
  description : PyVal
  not_financial : PyVal
  submitted_at : PyVal
  closed_at : PyVal
  bot_response_message_id : PyVal
  threshold_negative : PyVal
  finance_recipients : PyVal
  voters : List Voters
deriving DecidableEq, Repr

/-- The process-wide `proposals` dictionary: an insertion-ordered mapping
from the (dynamically typed) `voting_message_id` key to the proposal. -/
abbrev Registry := List (PyVal × Proposals)

/-- Python `proposals[key]` on the read side / `key in proposals`
membership: the value stored under `k`, if any. -/
def dictGet? (k : PyVal) : Registry → Option Proposals
  | [] => none
  | (k', v) :: rest => if k' = k then some v else dictGet? k rest

/-- Python `proposals[key] = value`: overwrite in place if the key exists
(keeping the original insertion position, as Python dicts do), otherwise
append. -/
def dictInsert (k : PyVal) (v : Proposals) : Registry → Registry
  | [] => [(k, v)]
  | (k', v') :: rest =>
    if k' = k then (k, v) :: rest else (k', v') :: dictInsert k v rest

/-- Python `del proposals[key]`: drop every entry stored under `k` (a dict
holds at most one). -/
def dictErase (k : PyVal) (d : Registry) : Registry :=
  d.filter (fun kv => kv.1 ≠ k)

deriving instance DecidableEq for Except

/-- Log severities that the claims talk about. -/
inductive LogLevel where
  | debug
  | info
  | critical
deriving DecidableEq, Repr

/-- Result type of `find_matching_voter`, whose Python return value is
either a bare `Voter` object (exactly one match) or a list of matches
(zero, or more than one). -/
inductive FindVoterResult where
  | single : Voters → FindVoterResult
  | multiple : List Voters → FindVoterResult
deriving DecidableEq, Repr

/-- Translation of `find_matching_voter(user_id, voting_message_id)`:
iterate over all registered proposals and their voters collecting the ones
matching both identifiers; return the bare voter when exactly one was
found, and the collected list otherwise. -/
def find_matching_voter (user_id voting_message_id : Int) (reg : Registry) :
    FindVoterResult :=
  let voters_found :=
    reg.foldl
      (fun acc kv =>
        kv.2.voters.foldl
          (fun acc2 v =>
            if v.user_id == user_id && v.voting_message_id == voting_message_id then
              acc2 ++ [v]
            else acc2)
          acc)
      []
  match voters_found with
  | [v] => .single v
  | vs => .multiple vs

/-- All voters in the registry matching both identifiers, in registry
iteration order: the list `find_matching_voter` builds, written as a
filter over the concatenation of all voter collections. -/
def matchingVoters (user_id voting_message_id : Int) (reg : Registry) :
    List Voters :=
  (reg.map (fun kv => kv.2.voters)).flatten.filter
    (fun v => v.user_id == user_id && v.voting_message_id == voting_message_id)

/-- Translation of `get_proposal(voting_message_id)`: return the proposal,
or raise `ValueError` when the id is not registered. -/
def get_proposal (voting_message_id : PyVal) (reg : Registry) :
    Except String Proposals :=
  match dictGet? voting_message_id reg with
  | some p => .ok p
  | none => .error "Invalid proposal ID"

/-- Outcome of `remove_proposal`: the registry afterwards, the log entries
emitted, and the raised exception if any. -/
structure RemoveResult where
  registry : Registry
  logs : List (LogLevel × String)
  result : Except String Unit
deriving DecidableEq, Repr

/-- Translation of `remove_proposal(voting_message_id, db)`. The outcome
of the awaited `db.delete` call on the storage collaborator (not part of
the two source files) is the explicit parameter `dbDelete`; when it raises,
the exception propagates before the `del` on the dictionary runs. -/
def remove_proposal (voting_message_id : PyVal) (dbDelete : Except String Unit)
    (reg : Registry) : RemoveResult :=
  match dictGet? voting_message_id reg with
  | some _ =>
    match dbDelete with
    | .error e =>
      { registry := reg
        logs := [(LogLevel.info, "Removing data")]
        result := .error e }
    | .ok _ =>
      { registry := dictErase voting_message_id reg
        logs := [(LogLevel.info, "Removing data")]
        result := .ok () }
  | none =>
    { registry := reg
      logs := [(LogLevel.critical, "Unable to remove the proposal")]
      result := .error "Invalid proposal ID" }

/-- Translation of `validate_grantless_proposal(new_proposal)`: the chain
of `isinstance` checks, each raising `ValueError` with the field's message
when it fails. -/
def validate_grantless_proposal (p : Proposals) : Except String Unit := do
  unless p.message_id.isInt do throw "message_id should be an int"
  unless p.channel_id.isInt do throw "channel_id should be an int"
  unless p.author_id.isUserStrOrInt do
    throw "author should be discord.User or str or int"
  unless p.voting_message_id.isInt do throw "voting_message_id should be an int"
  unless p.description.isStr do throw "description should be a string"
  unless p.not_financial.isBool do throw "not_financial should be bool"
  unless p.submitted_at.isDatetime do throw "submitted_at should be datetime"
  unless p.closed_at.isDatetime do throw "closed_at should be datetime"
  unless p.bot_response_message_id.isInt do
    throw "bot_response_message_id should be an int"
  unless p.threshold_negative.isInt do throw "threshold should be an int"

/-- Translation of `validate_proposal_with_grant(new_grant_proposal)`: the
grantless checks followed by the `InstrumentedList` check on
`finance_recipients`. -/
def validate_proposal_with_grant (p : Proposals) : Except String Unit :=
  match validate_grantless_proposal p with
  | .error e => .error e
  | .ok _ =>
    if p.finance_recipients.isInstrumentedList then .ok ()
    else .error "finance_recipients should be InstrumentedList"

/-- Translation of the dict-only overload `add_proposal(new_proposal)`:
dispatch validation on the truthiness of `not_financial`, then store the
proposal under its `voting_message_id` key. A raised validation error
leaves the dictionary untouched. -/
def add_proposal (p : Proposals) (reg : Registry) : Except String Registry :=
  match
    (if p.not_financial.truthy then validate_grantless_proposal p
     else validate_proposal_with_grant p) with
  | .error e => .error e
  | .ok _ => .ok (dictInsert p.voting_message_id p reg)

/-- Model of the `DBUtil` storage handle passed to the persisting overload
of `add_proposal` (the `DBUtil` class itself is outside the two source
files): its Python truthiness and the outcome of its awaited `add` call. -/
structure DBHandle where
  truthy : Bool
  addOutcome : Except String Unit
deriving DecidableEq, Repr

/-- Translation of the overload `add_proposal(new_proposal, db)`: first the
dict-only `add_proposal` runs (mutating the in-memory registry), then the
handle is truthiness-tested; a falsy handle raises the generic
`Exception` after the in-memory insertion already happened. The returned
registry is the in-memory state when the call returns or raises. -/
def add_proposal_db (p : Proposals) (h : DBHandle) (reg : Registry) :
    Registry × Except String Unit :=
  match add_proposal p reg with
  | .error e => (reg, .error e)
  | .ok reg' =>
    if h.truthy then
      match h.addOutcome with
      | .ok _ => (reg', .ok ())
      | .error e => (reg', .error e)
    else (reg', .error "Incorrect DB identifier was given.")

/-- Modelled from the spec: the failure-reaction emoji constant
`REACTION_ON_TRANSACTION_FAILED` lives in the config module, which is not
among the source files; only its identity matters. -/
def REACTION_ON_TRANSACTION_FAILED : String := "reaction_on_transaction_failed"

/-- Modelled from the spec: the success-reaction emoji constant
`REACTION_ON_TRANSACTION_SUCCEED` from the config module. -/
def REACTION_ON_TRANSACTION_SUCCEED : String := "reaction_on_transaction_succeed"

/-- Modelled from the spec: the delimiter used to serialize the recipient
list into the history record (`FREE_FUNDING_MENTIONS_COLUMN_SEPARATOR`
from the config module). -/
def FREE_FUNDING_MENTIONS_COLUMN_SEPARATOR : String := ","

/-- Modelled from the spec: the invalid-command-format reply text from the
config module. -/
def ERROR_MESSAGE_FREE_FUNDING_INVALID_COMMAND_FORMAT : String :=
  "error_message_free_funding_invalid_command_format"

/-- Modelled from the spec: the paused-by-flag-file reply text from the
config module. -/
def FREE_FUNDING_PAUSED_RESPONSE : String := "free_funding_paused_response"

/-- Modelled from the spec: the paused-during-recovery reply text from the
config module. -/
def FREE_FUNDING_PAUSED_RECOVERY_RESPONSE : String :=
  "free_funding_paused_recovery_response"

/-- Modelled from the spec: the unauthorized-role reply text from the
config module. -/
def ERROR_MESSAGE_INVALID_ROLE : String := "error_message_invalid_role"

/-- Model of a `FreeFundingTransaction` history row: author, recipients
serialized as one delimited string, total amount, description, and the
submission time (abstracted to a tick count). -/
structure FreeFundingTransaction where
  author : String
  mentions : String
  amount : ℚ
  description : String
  submitted_at : Nat
deriving DecidableEq, Repr

/-- The observable state `send_transaction` reads and mutates: the
author's free-funding balance record in the store (`none` when the author
has no record yet), the transaction history table, and the reactions,
replies and log entries emitted so far. Amounts are Python floats in the
source; they are modelled as exact rationals. -/
structure TxState where
  authorBalance : Option ℚ
  history : List FreeFundingTransaction
  reactions : List String
  replies : List String
  logs : List (LogLevel × String)
deriving DecidableEq, Repr

/-- Translation of `send_transaction(ctx, original_message, mentions,
amount, description)`. External collaborators are explicit parameters:
`validate` is the `validate_free_transaction` check from the validation
module (given the author's balance, the mentions, the amount and the
description), `notifyOutcome` is the outcome of the try-block that sends
the grant message to the downstream channel and suppresses its embeds,
`seasonLimit` is the config constant `FREE_FUNDING_LIMIT_PERSON_PER_SEASON`
used for lazy balance creation, and `now` the current time. Returns the
state afterwards and the exception re-raised to the caller, if any. -/
def send_transaction (validate : ℚ → List String → ℚ → String → Bool)
    (notifyOutcome : Except String Unit) (seasonLimit : ℚ) (now : Nat)
    (author_mention : String) (mentions : List String) (amount : ℚ)
    (description : String) (s : TxState) : TxState × Except String Unit :=
  let resolved :=
    match s.authorBalance with
    | some b => (b, s)
    | none =>
      (seasonLimit,
        { s with
            authorBalance := some seasonLimit
            logs := s.logs ++ [(LogLevel.debug, "Added free funding balance")] })
  let balance := resolved.1
  let s := resolved.2
  if !validate balance mentions amount description then
    ({ s with reactions := s.reactions ++ [REACTION_ON_TRANSACTION_FAILED] },
      .ok ())
  else
    let s := { s with
                 authorBalance := some (balance - amount * mentions.length) }
    match notifyOutcome with
    | .error e =>
      ({ s with
           replies := s.replies ++ ["Could not apply grant."]
           logs := s.logs ++
             [(LogLevel.critical, "An error occurred while sending grant message")] },
        .error e)
    | .ok _ =>
      ({ s with
           history := s.history ++
             [{ author := author_mention
                mentions :=
                  String.intercalate FREE_FUNDING_MENTIONS_COLUMN_SEPARATOR mentions
                amount := amount * mentions.length
                description := description
                submitted_at := now }]
           reactions := s.reactions ++ [REACTION_ON_TRANSACTION_SUCCEED]
           logs := s.logs ++ [(LogLevel.info, "Successfully sent free funding")] },
        .ok ())

/-- Python `str.split()` with no argument, as applied to the first regex
group: split on runs of whitespace, discarding empty pieces. -/
def pySplit (s : String) : List String :=
  (s.split Char.isWhitespace).filter (fun piece => piece ≠ "")

/-- Observable outcome of one invocation of the free-funding command
handler: the textual replies sent, the reactions added, whether the
zero-argument balance-inquiry path ran, and the arguments passed to
`send_transaction` when a transaction was attempted (recipient mentions as
split from the first regex group, the raw amount text of the second group,
and the description of the third). -/
structure CommandEffects where
  replies : List String
  reactions : List String
  balanceInquiry : Bool
  transactionCall : Option (List String × String × String)
deriving DecidableEq, Repr

/-- Translation of the control flow of
`free_funding_transact_command(ctx, *args)` up to the `send_transaction`
call. Environment facts resolved by external collaborators are explicit
parameters: `stopFileExists` (the sentinel flag file check),
`isRecovery` (`db.is_recovery()`), `rolesValid` (`validate_roles`),
`args` (the whitespace-separated command arguments after the command
word), `messageMentions` (the platform-resolved mention list of the
message), and `regexMatch` (the result of `re.search` with the structural
pattern: `none` on no match, otherwise the three captured groups). -/
def free_funding_transact_command (stopFileExists : Bool) (isRecovery : Bool)
    (rolesValid : Bool) (args : List String) (messageMentions : List Int)
    (regexMatch : Option (String × String × String)) : CommandEffects :=
  if stopFileExists then
    { replies := [FREE_FUNDING_PAUSED_RESPONSE]
      reactions := [REACTION_ON_TRANSACTION_FAILED]
      balanceInquiry := false
      transactionCall := none }
  else if isRecovery then
    { replies := [FREE_FUNDING_PAUSED_RECOVERY_RESPONSE]
      reactions := [REACTION_ON_TRANSACTION_FAILED]
      balanceInquiry := false
      transactionCall := none }
  else if !rolesValid then
    { replies := [ERROR_MESSAGE_INVALID_ROLE]
      reactions := [REACTION_ON_TRANSACTION_FAILED]
      balanceInquiry := false
      transactionCall := none }
  else if args.length == 0 then
    { replies := []
      reactions := []
      balanceInquiry := true
      transactionCall := none }
  else if args.length < 3 then
    { replies := [ERROR_MESSAGE_FREE_FUNDING_INVALID_COMMAND_FORMAT]
      reactions := [REACTION_ON_TRANSACTION_FAILED]
      balanceInquiry := false
      transactionCall := none }
  else if !messageMentions.isEmpty then
    match regexMatch with
    | none =>
      { replies := [ERROR_MESSAGE_FREE_FUNDING_INVALID_COMMAND_FORMAT]
        reactions := [REACTION_ON_TRANSACTION_FAILED]
        balanceInquiry := false
        transactionCall := none }
    | some (group1, group2, group3) =>
      { replies := []
        reactions := []
        balanceInquiry := false
        transactionCall := some (pySplit group1, group2, group3) }
  else
    { replies := []
      reactions := []
      balanceInquiry := false
      transactionCall := none }

/-- A well-typed non-financial proposal, used as concrete input by the
witnesses. Its `finance_recipients` field is Python `None`. -/
def sampleGrantless : Proposals :=
  { message_id := .int 1
    channel_id := .int 2
    author_id := .int 3
    voting_message_id := .int 10
    description := .str "a grantless proposal"
    not_financial := .bool true
    submitted_at := .datetime 0
    closed_at := .datetime 86400
    bot_response_message_id := .int 4
    threshold_negative := .int 5
    voters := []
    finance_recipients := .pynone }

/-- A financial proposal (falsy `not_financial`) whose finance-recipients
collection is absent (Python `None`), used as concrete input by the
witnesses. -/
def sampleFinancialBad : Proposals :=
  { sampleGrantless with
      voting_message_id := .int 11
      not_financial := .bool false
      finance_recipients := .pynone }

/-- A well-typed financial proposal whose finance recipients are a proper
`InstrumentedList`, carrying one voter. -/
def sampleFinancial : Proposals :=
  { sampleGrantless with
      voting_message_id := .int 12
      not_financial := .bool false
      finance_recipients := .instrumentedList [3]
      voters := [{ user_id := 7, voting_message_id := 12, value := 1 }] }

/-! ### Helper lemmas about the dictionary and the voter scan -/

theorem dictGet?_insert_self (k : PyVal) (v : Proposals) (d : Registry) :
    dictGet? k (dictInsert k v d) = some v := by
  induction d with
  | nil => simp [dictInsert, dictGet?]
  | cons kv rest ih =>
    obtain ⟨k', v'⟩ := kv
    by_cases h : k' = k
    · simp [dictInsert, dictGet?, h]
    · simp [dictInsert, dictGet?, h, ih]

theorem dictGet?_erase_self (k : PyVal) (d : Registry) :
    dictGet? k (dictErase k d) = none := by
  induction d with
  | nil => rfl
  | cons kv rest ih =>
    obtain ⟨k', v'⟩ := kv
    by_cases h : k' = k
    · simpa [dictErase, List.filter_cons, h] using ih
    · simpa [dictErase, dictGet?, List.filter_cons, h] using ih

theorem foldl_collect_voters (user_id voting_message_id : Int)
    (l : List Voters) (acc : List Voters) :
    l.foldl
      (fun acc2 v =>
        if v.user_id == user_id && v.voting_message_id == voting_message_id then
          acc2 ++ [v]
        else acc2)
      acc =
      acc ++ l.filter
        (fun v => v.user_id == user_id && v.voting_message_id == voting_message_id) := by
  induction l generalizing acc with
  | nil => simp
  | cons v rest ih =>
    rw [List.foldl_cons]
    by_cases h :
        (v.user_id == user_id && v.voting_message_id == voting_message_id) = true
    · rw [if_pos h, ih]
      simp [List.filter_cons, h, List.append_assoc]
    · rw [if_neg h, ih]
      simp [List.filter_cons, h]

theorem foldl_registry_voters (user_id voting_message_id : Int)
    (reg : Registry) (acc : List Voters) :
    reg.foldl
      (fun acc kv =>
        kv.2.voters.foldl
          (fun acc2 v =>
            if v.user_id == user_id && v.voting_message_id == voting_message_id then
              acc2 ++ [v]
            else acc2)
          acc)
      acc =
      acc ++ matchingVoters user_id voting_message_id reg := by
  induction reg generalizing acc with
  | nil => simp [matchingVoters]
  | cons kv rest ih =>
    rw [List.foldl_cons, ih, foldl_collect_voters]
    simp [matchingVoters, List.filter_append, List.append_assoc]

theorem find_matching_voter_eq (user_id voting_message_id : Int) (reg : Registry) :
    find_matching_voter user_id voting_message_id reg =
      match matchingVoters user_id voting_message_id reg with
      | [v] => .single v
      | vs => .multiple vs := by
  unfold find_matching_voter
  rw [foldl_registry_voters]
  simp

theorem add_proposal_ok_eq (p : Proposals) (reg reg' : Registry)
    (hadd : add_proposal p reg = .ok reg') :
    reg' = dictInsert p.voting_message_id p reg := by
  unfold add_proposal at hadd
  cases hv : (if p.not_financial.truthy then validate_grantless_proposal p
              else validate_proposal_with_grant p) with
  | error e => rw [hv] at hadd; simp at hadd
  | ok u => rw [hv] at hadd; simp at hadd; exact hadd.symm

/-! ### Claim theorems -/

/-- C1: `remove_proposal` on an absent voting-message id raises the
not-found `ValueError`, logs at critical severity and leaves the registry
unchanged; on a present id the durable delete runs first, so a failing
storage delete leaves the in-memory entry in place (with the exception
propagated), and only a successful storage delete removes the entry from
the mapping. -/
theorem remove_proposal_spec (voting_message_id : PyVal)
    (dbDelete : Except String Unit) (reg : Registry) :
    (dictGet? voting_message_id reg = none →
      remove_proposal voting_message_id dbDelete reg =
        { registry := reg
          logs := [(LogLevel.critical, "Unable to remove the proposal")]
          result := .error "Invalid proposal ID" }) ∧
    (∀ p, dictGet? voting_message_id reg = some p →
      (∀ e, dbDelete = .error e →
        (remove_proposal voting_message_id dbDelete reg).registry = reg ∧
        dictGet? voting_message_id
          (remove_proposal voting_message_id dbDelete reg).registry = some p ∧
        (remove_proposal voting_message_id dbDelete reg).result = .error e) ∧
      (dbDelete = .ok () →
        remove_proposal voting_message_id dbDelete reg =
          { registry := dictErase voting_message_id reg
            logs := [(LogLevel.info, "Removing data")]
            result := .ok () })) := by
  refine ⟨fun habs => ?_, fun p hpres => ⟨fun e hdb => ?_, fun hdb => ?_⟩⟩
  · simp [remove_proposal, habs]
  · subst hdb; simp [remove_proposal, hpres]
  · subst hdb; simp [remove_proposal, hpres]

theorem remove_proposal_spec_witness :
    (remove_proposal (.int 99) (.ok ()) [(.int 10, sampleGrantless)] =
      { registry := [(.int 10, sampleGrantless)]
        logs := [(LogLevel.critical, "Unable to remove the proposal")]
        result := .error "Invalid proposal ID" }) ∧
    ((remove_proposal (.int 10) (.error "db down")
        [(.int 10, sampleGrantless)]).registry = [(.int 10, sampleGrantless)] ∧
      dictGet? (.int 10) (remove_proposal (.int 10) (.error "db down")
          [(.int 10, sampleGrantless)]).registry = some sampleGrantless ∧
      (remove_proposal (.int 10) (.error "db down")
          [(.int 10, sampleGrantless)]).result = .error "db down") ∧
    (remove_proposal (.int 10) (.ok ()) [(.int 10, sampleGrantless)] =
      { registry := dictErase (.int 10) [(.int 10, sampleGrantless)]
        logs := [(LogLevel.info, "Removing data")]
        result := .ok () }) :=
  ⟨(remove_proposal_spec (.int 99) (.ok ()) _).1 (by decide),
   ((remove_proposal_spec (.int 10) (.error "db down") _).2 sampleGrantless
      (by decide)).1 "db down" rfl,
   ((remove_proposal_spec (.int 10) (.ok ()) _).2 sampleGrantless
      (by decide)).2 rfl⟩

/-- C5: after a successful `add_proposal`, `get_proposal` on the
proposal's voting-message id returns exactly the inserted proposal, and
after `remove_proposal` of that id (with the storage delete succeeding) a
subsequent `get_proposal` of the same id fails with the not-found
`ValueError`. -/
theorem add_lookup_remove_roundtrip (p : Proposals) (reg reg' : Registry)
    (hadd : add_proposal p reg = .ok reg') :
    get_proposal p.voting_message_id reg' = .ok p ∧
    get_proposal p.voting_message_id
        (remove_proposal p.voting_message_id (.ok ()) reg').registry =
      .error "Invalid proposal ID" := by
  have hreg := add_proposal_ok_eq p reg reg' hadd
  subst hreg
  have hget := dictGet?_insert_self p.voting_message_id p reg
  constructor
  · simp [get_proposal, hget]
  · simp [remove_proposal, hget, get_proposal, dictGet?_erase_self]

theorem add_lookup_remove_roundtrip_witness :
    get_proposal sampleGrantless.voting_message_id
        [(sampleGrantless.voting_message_id, sampleGrantless)] =
      .ok sampleGrantless ∧
    get_proposal sampleGrantless.voting_message_id
        (remove_proposal sampleGrantless.voting_message_id (.ok ())
          [(sampleGrantless.voting_message_id, sampleGrantless)]).registry =
      .error "Invalid proposal ID" :=
  add_lookup_remove_roundtrip sampleGrantless []
    [(sampleGrantless.voting_message_id, sampleGrantless)] (by decide)

/-- C6: inserting a financial proposal (falsy `not_financial` flag) whose
finance-recipients collection is not an `InstrumentedList` (in particular
absent, i.e. Python `None`) always raises a validation error, while
inserting a non-financial proposal never requires the recipients
collection: whenever its other fields pass the grantless validation it
succeeds, whatever `finance_recipients` holds. -/
theorem add_proposal_financial_recipients (p : Proposals) (reg : Registry) :
    (p.not_financial.truthy = false →
      p.finance_recipients.isInstrumentedList = false →
      ∃ e, add_proposal p reg = .error e) ∧
    (p.not_financial.truthy = true → validate_grantless_proposal p = .ok () →
      add_proposal p reg = .ok (dictInsert p.voting_message_id p reg)) := by
  constructor
  · intro hfin hrec
    obtain ⟨e, he⟩ : ∃ e, validate_proposal_with_grant p = .error e := by
      unfold validate_proposal_with_grant
      cases hg : validate_grantless_proposal p with
      | error e2 => exact ⟨e2, rfl⟩
      | ok u =>
        refine ⟨"finance_recipients should be InstrumentedList", ?_⟩
        rw [hrec]
        rfl
    refine ⟨e, ?_⟩
    unfold add_proposal
    rw [hfin]
    simp [he]
  · intro hnf hval
    unfold add_proposal
    rw [hnf]
    simp [hval]

theorem add_proposal_financial_recipients_witness :
    (∃ e, add_proposal sampleFinancialBad [] = .error e) ∧
    add_proposal sampleGrantless [] =
      .ok (dictInsert sampleGrantless.voting_message_id sampleGrantless []) :=
  ⟨(add_proposal_financial_recipients sampleFinancialBad []).1 (by decide)
      (by decide),
   (add_proposal_financial_recipients sampleGrantless []).2 (by decide)
      (by decide)⟩

/-- C9: when the persisting overload of `add_proposal` is given a falsy
storage handle, the generic "Incorrect DB identifier" error is raised only
after the in-memory insertion already happened: the call returns that
error together with a registry that contains the new proposal, so the
operation is not atomic. -/
theorem add_proposal_db_falsy (p : Proposals) (h : DBHandle)
    (reg reg' : Registry) (hfalsy : h.truthy = false)
    (hadd : add_proposal p reg = .ok reg') :
    add_proposal_db p h reg =
      (reg', .error "Incorrect DB identifier was given.") ∧
    dictGet? p.voting_message_id reg' = some p := by
  have hreg := add_proposal_ok_eq p reg reg' hadd
  constructor
  · unfold add_proposal_db
    rw [hadd, hfalsy]
    simp
  · rw [hreg]
    exact dictGet?_insert_self p.voting_message_id p reg

theorem add_proposal_db_falsy_witness :
    add_proposal_db sampleGrantless { truthy := false, addOutcome := .ok () } [] =
      ([(sampleGrantless.voting_message_id, sampleGrantless)],
        .error "Incorrect DB identifier was given.") ∧
    dictGet? sampleGrantless.voting_message_id
        [(sampleGrantless.voting_message_id, sampleGrantless)] =
      some sampleGrantless :=
  add_proposal_db_falsy sampleGrantless { truthy := false, addOutcome := .ok () }
    [] [(sampleGrantless.voting_message_id, sampleGrantless)] rfl (by decide)

/-- C10: `add_proposal` performs no duplicate check: called on a (valid)
proposal whose voting-message id is already registered, it succeeds
without error and silently overwrites, so the registry afterwards maps
that id to the newly inserted proposal. -/
theorem add_proposal_overwrites (p q : Proposals) (reg : Registry)
    (hpresent : dictGet? p.voting_message_id reg = some q)
    (hvalid : (if p.not_financial.truthy then validate_grantless_proposal p
               else validate_proposal_with_grant p) = .ok ()) :
    add_proposal p reg = .ok (dictInsert p.voting_message_id p reg) ∧
    dictGet? p.voting_message_id (dictInsert p.voting_message_id p reg) =
      some p := by
  refine ⟨?_, dictGet?_insert_self p.voting_message_id p reg⟩
  unfold add_proposal
  rw [hvalid]

theorem add_proposal_overwrites_witness :
    add_proposal sampleGrantless
        [(sampleGrantless.voting_message_id, sampleFinancial)] =
      .ok (dictInsert sampleGrantless.voting_message_id sampleGrantless
        [(sampleGrantless.voting_message_id, sampleFinancial)]) ∧
    dictGet? sampleGrantless.voting_message_id
        (dictInsert sampleGrantless.voting_message_id sampleGrantless
          [(sampleGrantless.voting_message_id, sampleFinancial)]) =
      some sampleGrantless :=
  add_proposal_overwrites sampleGrantless sampleFinancial
    [(sampleGrantless.voting_message_id, sampleFinancial)] (by decide) (by decide)

/-- C8: `find_matching_voter` returns the bare matching `Voter` object
(not wrapped in a collection) when exactly one voter across all registered
proposals matches both identifiers, the empty list when none match, and
the multi-element list of all matches when more than one voter matches. -/
theorem find_matching_voter_cardinality (user_id voting_message_id : Int)
    (reg : Registry) :
    (∀ v, matchingVoters user_id voting_message_id reg = [v] →
      find_matching_voter user_id voting_message_id reg = .single v) ∧
    (matchingVoters user_id voting_message_id reg = [] →
      find_matching_voter user_id voting_message_id reg = .multiple []) ∧
    (2 ≤ (matchingVoters user_id voting_message_id reg).length →
      find_matching_voter user_id voting_message_id reg =
        .multiple (matchingVoters user_id voting_message_id reg)) := by
  refine ⟨fun v hv => ?_, fun hv => ?_, fun hlen => ?_⟩
  · rw [find_matching_voter_eq, hv]
  · rw [find_matching_voter_eq, hv]
  · cases hm : matchingVoters user_id voting_message_id reg with
    | nil => rw [hm] at hlen; simp at hlen
    | cons a t =>
      cases t with
      | nil => rw [hm] at hlen; simp at hlen
      | cons b t2 => rw [find_matching_voter_eq, hm]

theorem find_matching_voter_cardinality_witness :
    find_matching_voter 7 12 [(.int 12, sampleFinancial)] =
      .single { user_id := 7, voting_message_id := 12, value := 1 } ∧
    find_matching_voter 7 99 [(.int 12, sampleFinancial)] = .multiple [] ∧
    find_matching_voter 7 12
        [(.int 12, { sampleFinancial with
            voters := [{ user_id := 7, voting_message_id := 12, value := 1 },
                       { user_id := 7, voting_message_id := 12, value := -1 }] })] =
      .multiple [{ user_id := 7, voting_message_id := 12, value := 1 },
                 { user_id := 7, voting_message_id := 12, value := -1 }] :=
  ⟨(find_matching_voter_cardinality 7 12 [(.int 12, sampleFinancial)]).1
      { user_id := 7, voting_message_id := 12, value := 1 } (by decide),
   (find_matching_voter_cardinality 7 99 [(.int 12, sampleFinancial)]).2.1
      (by decide),
   ((find_matching_voter_cardinality 7 12
        [(.int 12, { sampleFinancial with
            voters := [{ user_id := 7, voting_message_id := 12, value := 1 },
                       { user_id := 7, voting_message_id := 12, value := -1 }] })]).2.2
      (by decide)).trans (by decide)⟩

/-- C2: in `send_transaction`, whenever the debit has already succeeded
(validation passed on the resolved balance) and the downstream
grant-notification step raises an exception, the author's balance keeps
the debited value (no rollback), a critical-severity log entry is emitted,
no transaction history record is appended, and the exception is re-raised
to the caller rather than swallowed. -/
theorem send_transaction_notify_failure
    (validate : ℚ → List String → ℚ → String → Bool) (e : String)
    (seasonLimit : ℚ) (now : Nat) (author_mention : String)
    (mentions : List String) (amount : ℚ) (description : String) (s : TxState)
    (hv : validate (s.authorBalance.getD seasonLimit) mentions amount
        description = true) :
    (send_transaction validate (.error e) seasonLimit now author_mention
        mentions amount description s).1.authorBalance =
      some (s.authorBalance.getD seasonLimit - amount * (mentions.length : ℚ)) ∧
    (send_transaction validate (.error e) seasonLimit now author_mention
        mentions amount description s).1.history = s.history ∧
    (send_transaction validate (.error e) seasonLimit now author_mention
        mentions amount description s).2 = .error e ∧
    ∃ pre, (send_transaction validate (.error e) seasonLimit now author_mention
        mentions amount description s).1.logs =
      pre ++ [(LogLevel.critical, "An error occurred while sending grant message")] := by
  cases hb : s.authorBalance with
  | none =>
    rw [hb, Option.getD_none] at hv
    refine ⟨?_, ?_, ?_,
      ⟨s.logs ++ [(LogLevel.debug, "Added free funding balance")], ?_⟩⟩ <;>
      simp [send_transaction, hb, hv]
  | some b =>
    rw [hb, Option.getD_some] at hv
    refine ⟨?_, ?_, ?_, ⟨s.logs, ?_⟩⟩ <;> simp [send_transaction, hb, hv]

theorem send_transaction_notify_failure_witness :
    (send_transaction (fun _ m _ _ => !m.isEmpty)
        (.error "channel down") 500 0 "author" ["recipient"] 20 "thanks"
        { authorBalance := some 100, history := [], reactions := []
          replies := [], logs := [] }).1.authorBalance = some 80 ∧
    (send_transaction (fun _ m _ _ => !m.isEmpty)
        (.error "channel down") 500 0 "author" ["recipient"] 20 "thanks"
        { authorBalance := some 100, history := [], reactions := []
          replies := [], logs := [] }).1.history = [] ∧
    (send_transaction (fun _ m _ _ => !m.isEmpty)
        (.error "channel down") 500 0 "author" ["recipient"] 20 "thanks"
        { authorBalance := some 100, history := [], reactions := []
          replies := [], logs := [] }).2 = .error "channel down" ∧
    (send_transaction (fun _ m _ _ => !m.isEmpty)
        (.error "channel down") 500 0 "author" ["recipient"] 20 "thanks"
        { authorBalance := some 100, history := [], reactions := []
          replies := [], logs := [] }).1.logs =
      [(LogLevel.critical, "An error occurred while sending grant message")] := by
  have h := send_transaction_notify_failure
    (fun _ m _ _ => !m.isEmpty) "channel down" 500 0
    "author" ["recipient"] 20 "thanks"
    { authorBalance := some 100, history := [], reactions := []
      replies := [], logs := [] } (by decide)
  refine ⟨h.1.trans (by norm_num), h.2.1, h.2.2.1, ?_⟩
  obtain ⟨pre, hpre⟩ := h.2.2.2
  simp [send_transaction]

/-- C3: every successful execution of `send_transaction` (validation
passes, the downstream notification succeeds) with recipient mentions `m`,
amount `a` and prior author balance `b` leaves the balance at
`b - a * m.length`, appends exactly one transaction history record whose
amount is `a * m.length`, and adds the success reaction. -/
theorem send_transaction_success
    (validate : ℚ → List String → ℚ → String → Bool) (seasonLimit : ℚ)
    (now : Nat) (author_mention : String) (mentions : List String)
    (amount : ℚ) (description : String) (s : TxState) (b : ℚ)
    (hb : s.authorBalance = some b)
    (hv : validate b mentions amount description = true) :
    send_transaction validate (.ok ()) seasonLimit now author_mention
        mentions amount description s =
      ({ s with
           authorBalance := some (b - amount * (mentions.length : ℚ))
           history := s.history ++
             [{ author := author_mention
                mentions := String.intercalate
                  FREE_FUNDING_MENTIONS_COLUMN_SEPARATOR mentions
                amount := amount * (mentions.length : ℚ)
                description := description
                submitted_at := now }]
           reactions := s.reactions ++ [REACTION_ON_TRANSACTION_SUCCEED]
           logs := s.logs ++ [(LogLevel.info, "Successfully sent free funding")] },
        .ok ()) := by
  simp [send_transaction, hb, hv]

theorem send_transaction_success_witness :
    send_transaction (fun _ m _ _ => !m.isEmpty)
        (.ok ()) 500 3 "author" ["recipient"] 20 "thanks"
        { authorBalance := some 100, history := [], reactions := []
          replies := [], logs := [] } =
      ({ authorBalance := some 80
         history := [{ author := "author", mentions := "recipient"
                       amount := 20, description := "thanks"
                       submitted_at := 3 }]
         reactions := [REACTION_ON_TRANSACTION_SUCCEED]
         replies := []
         logs := [(LogLevel.info, "Successfully sent free funding")] },
        .ok ()) := by
  have h := send_transaction_success
    (fun _ m _ _ => !m.isEmpty) 500 3 "author"
    ["recipient"] 20 "thanks"
    { authorBalance := some 100, history := [], reactions := []
      replies := [], logs := [] } 100 rfl (by decide)
  have hs : String.intercalate FREE_FUNDING_MENTIONS_COLUMN_SEPARATOR
      ["recipient"] = "recipient" := rfl
  refine h.trans ?_
  rw [hs]
  norm_num

/-- C4 counterexample: an execution of `send_transaction` in which the
validator rejects but the author had no balance record: the lazy creation
step has already added a balance record at the season limit (50 here)
before validation ran, so state is mutated beyond the failure reaction,
contrary to the claim that no state mutation occurs. -/
theorem send_transaction_reject_lazy_creation :
    (send_transaction (fun _ _ _ _ => false) (.ok ()) 50 0 "author"
        ["recipient"] 20 "pay"
        { authorBalance := none, history := [], reactions := []
          replies := [], logs := [] }).1.authorBalance = some 50 ∧
    (send_transaction (fun _ _ _ _ => false) (.ok ()) 50 0 "author"
        ["recipient"] 20 "pay"
        { authorBalance := none, history := [], reactions := []
          replies := [], logs := [] }).1.reactions =
      [REACTION_ON_TRANSACTION_FAILED] := by
  constructor <;> rfl

/-- C4 (amended): for every execution of `send_transaction` in which the
author already has a balance record and the validator rejects, the
author's balance is unchanged, no history record is created, the failure
reaction is applied, and no other state mutation occurs before or after
the rejection. -/
theorem send_transaction_reject_no_mutation
    (validate : ℚ → List String → ℚ → String → Bool)
    (notifyOutcome : Except String Unit) (seasonLimit : ℚ) (now : Nat)
    (author_mention : String) (mentions : List String) (amount : ℚ)
    (description : String) (s : TxState) (b : ℚ)
    (hb : s.authorBalance = some b)
    (hv : validate b mentions amount description = false) :
    send_transaction validate notifyOutcome seasonLimit now author_mention
        mentions amount description s =
      ({ s with reactions := s.reactions ++ [REACTION_ON_TRANSACTION_FAILED] },
        .ok ()) := by
  simp [send_transaction, hb, hv]

theorem send_transaction_reject_no_mutation_witness :
    send_transaction (fun _ _ _ _ => false)
        (.ok ()) 500 0 "author" ["recipient"] 20 "pay"
        { authorBalance := some 10, history := [], reactions := []
          replies := [], logs := [] } =
      ({ authorBalance := some 10, history := []
         reactions := [REACTION_ON_TRANSACTION_FAILED], replies := []
         logs := [] },
        .ok ()) := by
  have h := send_transaction_reject_no_mutation
    (fun _ _ _ _ => false) (.ok ()) 500 0 "author"
    ["recipient"] 20 "pay"
    { authorBalance := some 10, history := [], reactions := []
      replies := [], logs := [] } 10 rfl rfl
  exact h.trans (by norm_num)

/-- C7 counterexample: a command with three arguments but no
platform-resolved mention is silently ignored by
`free_funding_transact_command`: no reply is sent, no reaction is added
and no transaction is attempted, contrary to the claim that the user
receives the invalid-format reply and the failure reaction. -/
theorem transact_command_no_mention_silent :
    free_funding_transact_command false false true ["<@1>", "20", "pay"] []
        none =
      { replies := [], reactions := [], balanceInquiry := false
        transactionCall := none } := by
  rfl

/-- C7 (amended): for every command with at least three
whitespace-separated arguments that passes the stop-file, recovery and
role gates, if the message has at least one platform-resolved mention but
the structural regex pattern fails to match, the command is rejected as
malformed (invalid-format reply, failure reaction, no transaction
attempted); if the message has no platform-resolved mention, no
transaction is attempted either, but the command is silently ignored with
no reply and no reaction. -/
theorem transact_command_malformed (args : List String)
    (messageMentions : List Int)
    (regexMatch : Option (String × String × String))
    (hargs : 3 ≤ args.length) :
    (messageMentions ≠ [] → regexMatch = none →
      free_funding_transact_command false false true args messageMentions
          regexMatch =
        { replies := [ERROR_MESSAGE_FREE_FUNDING_INVALID_COMMAND_FORMAT]
          reactions := [REACTION_ON_TRANSACTION_FAILED]
          balanceInquiry := false
          transactionCall := none }) ∧
    (messageMentions = [] →
      free_funding_transact_command false false true args messageMentions
          regexMatch =
        { replies := [], reactions := [], balanceInquiry := false
          transactionCall := none }) := by
  have h0 : args.length ≠ 0 := by omega
  have h3 : ¬args.length < 3 := by omega
  constructor
  · intro hm hr
    subst hr
    cases messageMentions with
    | nil => exact absurd rfl hm
    | cons m rest => simp [free_funding_transact_command, h0, h3]
  · intro hm
    subst hm
    simp [free_funding_transact_command, h0, h3]

theorem transact_command_malformed_witness :
    free_funding_transact_command false false true ["<@5>", "20", "pay"] [5]
        none =
      { replies := [ERROR_MESSAGE_FREE_FUNDING_INVALID_COMMAND_FORMAT]
        reactions := [REACTION_ON_TRANSACTION_FAILED]
        balanceInquiry := false
        transactionCall := none } ∧
    free_funding_transact_command false false true ["<@5>", "20", "pay"] []
        (some ("<@5> ", "20", "pay")) =
      { replies := [], reactions := [], balanceInquiry := false
        transactionCall := none } :=
  ⟨(transact_command_malformed ["<@5>", "20", "pay"] [5] none (by decide)).1
      (by decide) rfl,
   (transact_command_malformed ["<@5>", "20", "pay"] []
      (some ("<@5> ", "20", "pay")) (by decide)).2 rfl⟩
